import Mathlib

/-
Shallow embedding of the campaign publish pipeline, the account resolver,
the in-process event broadcaster and the streaming session loop of the
Ads Studio backend (src/main.py, with the variant publish endpoint of
src/backend/main.py), together with proofs of the specified properties.
-/

set_option autoImplicit false

namespace AdsStudio

/-- Python truthiness of an optional string field: None and the empty
string are falsy, every other string is truthy. -/
def strOptTruthy : Option String → Bool
  | some s => s != ""
  | none => false

/-- Embeds the SocialAccount pydantic model of src/main.py: the fields
platform, page_name, access_token. -/
structure SocialAccount where
  platform : String
  page_name : Option String
  access_token : Option String
deriving DecidableEq

/-- Embeds a stored document of the token collection as written by
upsert_account in src/main.py (AccountTokenCreate): access_token is a
required string, page_id and page_name are optional. -/
structure TokenDoc where
  platform : String
  page_id : Option String
  page_name : Option String
  access_token : String
deriving DecidableEq

/-- Embeds the slice of CampaignCreate (src/main.py) that publish_campaign
reads: only social_accounts flows into the publish pipeline; the other
fields (name, headline, budgets, ...) never reach the publish result and
are omitted from the embedding. -/
structure CampaignCreate where
  social_accounts : Option (List SocialAccount)
deriving DecidableEq

/-- Embeds PublishRequest of src/main.py. -/
structure PublishRequest where
  campaign_id : Option String
  campaign : Option CampaignCreate
deriving DecidableEq

/-- Embeds PublishResult of src/main.py. -/
structure PublishResult where
  platform : String
  page_name : Option String
  status : String
  message : String
deriving DecidableEq

/-- Embeds PublishResponse of src/main.py. -/
structure PublishResponse where
  campaign_id : Option String
  results : List PublishResult
  summary : String
deriving DecidableEq

/-- The two HTTPException outcomes publish_campaign can raise: 400 with a
detail string, 404 with a detail string. -/
inductive PublishError
  | badRequest (detail : String)
  | notFound (detail : String)
deriving DecidableEq

/-- Embeds a log document written by publish_campaign: the fields type and
results are kept; created_at is wall-clock time and carries no logical
content. -/
structure LogRecord where
  type : String
  results : List PublishResult
deriving DecidableEq

/-- The stored collections read by the publish pipeline: token documents
and campaign documents, the latter keyed by their string id. -/
structure Db where
  tokens : List TokenDoc
  campaigns : List (String × CampaignCreate)
deriving DecidableEq

/-- Python expression campaign_payload.social_accounts or []. -/
def accountsOf : Option (List SocialAccount) → List SocialAccount
  | some l => l
  | none => []

/-- The Mongo query dict built in publish_campaign of src/main.py: always
platform, plus page_name exactly when the target carried a truthy
page_name hint. -/
def credQuery (platform : String) (hint : Option String) (d : TokenDoc) : Bool :=
  d.platform == platform &&
    match hint with
    | some pn => d.page_name == some pn
    | none => true

/-- find_one on the token collection: the first stored credential matching
the query. -/
def mainFindCredential (store : List TokenDoc) (platform : String) (hint : Option String) :
    Option TokenDoc :=
  store.find? (credQuery platform hint)

/-- One step of the enrichment loop of publish_campaign in src/main.py:
a target with a truthy access_token is kept as is; otherwise the token
store is queried by platform, narrowed by page_name exactly when the
target carries a truthy page_name, and the first match (if any) replaces
the target. -/
def enrichOne (store : List TokenDoc) (acc : SocialAccount) : SocialAccount :=
  if strOptTruthy acc.access_token then acc
  else
    let hint : Option String := if strOptTruthy acc.page_name then acc.page_name else none
    match mainFindCredential store acc.platform hint with
    | some d =>
        { platform := acc.platform, page_name := d.page_name, access_token := some d.access_token }
    | none => acc

/-- The classification step of publish_campaign in src/main.py: a target
without a truthy token becomes an error result, any other target becomes
a success result. -/
def classify (acc : SocialAccount) : PublishResult :=
  if strOptTruthy acc.access_token = false then
    { platform := acc.platform, page_name := acc.page_name,
      status := "error", message := "Missing access token for this page" }
  else
    { platform := acc.platform, page_name := acc.page_name,
      status := "success", message := "Queued for publish" }

/-- The summary f-string of publish_campaign in src/main.py. -/
def mkSummary (success_count total : Nat) : String :=
  "Prepared " ++ toString success_count ++ "/" ++ toString total ++ " posts for publishing"

/-- The enrichment pass of publish_campaign: runs only when the database
handle is present and the (already truncated) account list is nonempty. -/
def processAccounts (db_present : Bool) (db : Db) (accounts : List SocialAccount) :
    List SocialAccount :=
  if db_present && !accounts.isEmpty then accounts.map (enrichOne db.tokens) else accounts

/-- Campaign resolution in publish_campaign of src/main.py: an inline
campaign is used directly; otherwise the campaign collection is listed
(get_documents default limit 100) and the first document whose id equals
the requested campaign_id is taken; no match raises 404. -/
def resolveCampaign (db : Db) (body : PublishRequest) : Except PublishError CampaignCreate :=
  match body.campaign with
  | some c => Except.ok c
  | none =>
      match (db.campaigns.take 100).find? (fun p => body.campaign_id == some p.fst) with
      | some p => Except.ok p.snd
      | none => Except.error (PublishError.notFound "Campaign not found")

/-- Embeds publish_campaign of src/main.py. State passing: db_present
models db is not None, logs is the log collection before the call and the
second component of the result is the log collection after it. -/
def publish_campaign (db_present : Bool) (db : Db) (logs : List LogRecord)
    (body : PublishRequest) : Except PublishError PublishResponse × List LogRecord :=
  if body.campaign.isNone && !strOptTruthy body.campaign_id then
    (Except.error (PublishError.badRequest "Provide campaign or campaign_id"), logs)
  else
    match resolveCampaign db body with
    | Except.error e => (Except.error e, logs)
    | Except.ok campaign_payload =>
        let accounts := (accountsOf campaign_payload.social_accounts).take 5
        let accounts := processAccounts db_present db accounts
        let results := accounts.map classify
        let log : LogRecord := { type := "publish", results := results }
        let success_count := (results.filter (fun r => r.status == "success")).length
        (Except.ok { campaign_id := body.campaign_id, results := results,
                     summary := mkSummary success_count results.length },
         logs ++ [log])

/-- The end-to-end fate of one (post-truncation) publish target: enriched
when the database is available, then classified. -/
def targetResult (db_present : Bool) (db : Db) (acc : SocialAccount) : PublishResult :=
  classify (if db_present then enrichOne db.tokens acc else acc)

/-- Python expression (acc.split(":", 1) + [None])[:2] of
src/backend/main.py: the platform before the first colon and the page_id
after it, when a colon is present. -/
def splitTarget (acc : String) : String × Option String :=
  match acc.splitOn ":" with
  | [] => (acc, none)
  | [p] => (p, none)
  | p :: rest => (p, some (String.intercalate ":" rest))

/-- The credential lookup of the publish endpoint in src/backend/main.py:
an exact (platform, page_id) match is tried when a truthy page_id is
given, and on a miss (or no page_id) the first credential for the
platform alone is taken. -/
def backendResolve (store : List TokenDoc) (platform : String) (page_id : Option String) :
    Option TokenDoc :=
  let byPage : Option TokenDoc :=
    match page_id with
    | some pid =>
        if pid = "" then none
        else store.find? (fun d => d.platform == platform && d.page_id == some pid)
    | none => none
  match byPage with
  | some d => some d
  | none => store.find? (fun d => d.platform == platform)

/-- A registered streaming subscriber: its identity, the ordered queue of
pending events, and whether an enqueue onto its queue still succeeds
(accepting is false once the consuming session is gone and q.put raises). -/
structure Subscriber (α : Type) where
  sid : Nat
  queue : List α
  accepting : Bool
deriving DecidableEq

/-- One enqueue attempt, try: await q.put(event): on success the event is
appended at the back of the queue, on failure the subscriber is unchanged
and the failure is reported. -/
def putEvent {α : Type} (e : α) (s : Subscriber α) : Subscriber α × Bool :=
  if s.accepting then ({ s with queue := s.queue ++ [e] }, true) else (s, false)

/-- listeners.remove(q): removes the first entry carrying the given id,
and is the identity when no entry carries it. -/
def removeFirstBySid {α : Type} (sid : Nat) : List (Subscriber α) → List (Subscriber α)
  | [] => []
  | s :: rest => if s.sid = sid then rest else s :: removeFirstBySid sid rest

/-- Embeds _notify of src/main.py: iterate over a snapshot of _listeners
attempting one enqueue per subscriber, collect the subscribers whose
enqueue failed, then remove each of them from the registry. -/
def notify {α : Type} (e : α) (listeners : List (Subscriber α)) : List (Subscriber α) :=
  let stepped := listeners.map (fun s => putEvent e s)
  let dead := (stepped.filter (fun p => p.snd == false)).map (fun p => p.fst.sid)
  dead.foldl (fun acc sid => removeFirstBySid sid acc) (stepped.map Prod.fst)

/-- Embeds the finally block of _event_generator: if q in _listeners then
_listeners.remove(q): remove the first entry with the given id when one
is present, otherwise leave the registry untouched. -/
def unregisterSid {α : Type} (listeners : List (Subscriber α)) (sid : Nat) :
    List (Subscriber α) :=
  if sid ∈ listeners.map Subscriber.sid then removeFirstBySid sid listeners else listeners

/-- The ways the streaming loop of _event_generator can exit: the client
disconnected, the loop body raised, or the task was cancelled. -/
inductive ExitReason
  | disconnected
  | errored
  | cancelled
deriving DecidableEq

/-- The teardown performed by _event_generator on exit: the finally block
runs the same unregistration regardless of how the loop exited. -/
def sessionTeardown {α : Type} (_ : ExitReason) (listeners : List (Subscriber α)) (sid : Nat) :
    List (Subscriber α) :=
  unregisterSid listeners sid

/-- One observable iteration of the streaming loop of _event_generator:
the disconnect check fired, a queued event (already JSON-serialised) was
delivered within the timeout, or the 15 second timeout elapsed at the
given wall-clock timestamp. -/
inductive SessionInput
  | disconnect
  | deliver (payload : String)
  | idle (ts : String)
deriving DecidableEq

/-- The asyncio.wait_for timeout of _event_generator, in seconds. -/
def heartbeatTimeoutSeconds : Nat := 15

/-- The initial SSE frame of _event_generator: event name ping, JSON body
with type hello and the current timestamp (json.dumps default
separators). -/
def helloFrame (ts : String) : String :=
  "event: ping\ndata: \x7b\x22type\x22: \x22hello\x22, \x22ts\x22: \x22" ++ ts
    ++ "\x22\x7d\n\n"

/-- A heartbeat SSE frame of _event_generator: event name ping, JSON body
with type ping and the timestamp taken when the timeout elapsed. -/
def pingFrame (ts : String) : String :=
  "event: ping\ndata: \x7b\x22type\x22: \x22ping\x22, \x22ts\x22: \x22" ++ ts
    ++ "\x22\x7d\n\n"

/-- A substantive SSE frame of _event_generator: event name message, the
serialised event as the data line. -/
def messageFrame (payload : String) : String :=
  "event: message\ndata: " ++ payload ++ "\n\n"

/-- The while loop of _event_generator over a finite trace of loop
inputs: a disconnect breaks out of the loop, a delivered event is framed
as a message, an elapsed timeout is framed as a ping heartbeat. -/
def sessionLoop : List SessionInput → List String
  | [] => []
  | SessionInput.disconnect :: _ => []
  | SessionInput.deliver p :: rest => messageFrame p :: sessionLoop rest
  | SessionInput.idle ts :: rest => pingFrame ts :: sessionLoop rest

/-- Embeds the frame output of _event_generator: the hello frame first,
then the loop frames. -/
def eventGenerator (helloTs : String) (inputs : List SessionInput) : List String :=
  helloFrame helloTs :: sessionLoop inputs

/-- The total frame a loop input would produce, used to state the
per-iteration output of sessionLoop. -/
def frameOf : SessionInput → String
  | SessionInput.disconnect => ""
  | SessionInput.deliver p => messageFrame p
  | SessionInput.idle ts => pingFrame ts

/-- Sample store with no documents, used in concrete witnesses. -/
def emptyDb : Db := { tokens := [], campaigns := [] }

/-- Sample stored facebook credential, used in concrete witnesses. -/
def fbCred : TokenDoc :=
  { platform := "facebook", page_id := some "pid1", page_name := some "Page B",
    access_token := "tokB" }

/-- Sample inline campaign with three targets of which two carry a token,
used in concrete statements about the summary string. -/
def threeTargetCampaign : CampaignCreate :=
  { social_accounts := some
      [ { platform := "facebook", page_name := some "Page A", access_token := some "t1" },
        { platform := "twitter", page_name := none, access_token := some "t2" },
        { platform := "linkedin", page_name := none, access_token := none } ] }

/-- Sample one-target inline campaign whose target already carries a
token, used in the pass-through witness. -/
def mineCampaign : CampaignCreate :=
  { social_accounts := some
      [ { platform := "facebook", page_name := some "Mine", access_token := some "tok0" } ] }

/-- The publish results produced for threeTargetCampaign without a
database. -/
def threeTargetResults : List PublishResult :=
  [ { platform := "facebook", page_name := some "Page A", status := "success",
      message := "Queued for publish" },
    { platform := "twitter", page_name := none, status := "success",
      message := "Queued for publish" },
    { platform := "linkedin", page_name := none, status := "error",
      message := "Missing access token for this page" } ]

/- ===== Helper lemmas ===== -/

theorem find?_ext {β : Type} {p q : β → Bool} (h : ∀ a, p a = q a) :
    ∀ l : List β, l.find? p = l.find? q := by
  intro l
  induction l with
  | nil => rfl
  | cons a rest ih =>
      cases hq : q a with
      | true =>
          rw [List.find?_cons_of_pos _ (by rw [h a]; exact hq), List.find?_cons_of_pos _ hq]
      | false =>
          rw [List.find?_cons_of_neg _ (by simp [h a, hq]), List.find?_cons_of_neg _ (by simp [hq]),
            ih]

theorem processAccounts_map_classify (dbp : Bool) (db : Db) (accounts : List SocialAccount) :
    (processAccounts dbp db accounts).map classify = accounts.map (targetResult dbp db) := by
  cases dbp with
  | false => simp [processAccounts, targetResult]
  | true =>
      cases accounts with
      | nil => simp [processAccounts]
      | cons a rest =>
          simp only [processAccounts, List.isEmpty_cons, Bool.not_false, Bool.and_self,
            if_pos, List.map_map]
          rfl

theorem publish_ok_spec (dbp : Bool) (db : Db) (logs : List LogRecord) (body : PublishRequest)
    (c : CampaignCreate) (hres : resolveCampaign db body = Except.ok c)
    (hc : (body.campaign.isNone && !strOptTruthy body.campaign_id) = false) :
    publish_campaign dbp db logs body =
      (Except.ok
        { campaign_id := body.campaign_id,
          results := ((accountsOf c.social_accounts).take 5).map (targetResult dbp db),
          summary := mkSummary
            ((((accountsOf c.social_accounts).take 5).map (targetResult dbp db)).filter
              (fun r => r.status == "success")).length
            (((accountsOf c.social_accounts).take 5).map (targetResult dbp db)).length },
       logs ++ [{ type := "publish",
                  results := ((accountsOf c.social_accounts).take 5).map
                    (targetResult dbp db) }]) := by
  unfold publish_campaign
  rw [hc, hres]
  simp [processAccounts_map_classify]

/- ===== Claim theorems ===== -/

/-- Claim C2: for any publish request that resolves to a campaign with n
target accounts, the orchestrator returns success (no error is raised),
processes exactly min(n, 5) targets, and produces one result per
processed target in the original list order, dropping only the trailing
excess beyond 5. -/
theorem publish_truncation (dbp : Bool) (db : Db) (logs : List LogRecord)
    (body : PublishRequest) (c : CampaignCreate)
    (hres : resolveCampaign db body = Except.ok c)
    (hc : (body.campaign.isNone && !strOptTruthy body.campaign_id) = false) :
    ∃ resp, (publish_campaign dbp db logs body).fst = Except.ok resp ∧
      resp.results.length = min (accountsOf c.social_accounts).length 5 ∧
      resp.results = ((accountsOf c.social_accounts).take 5).map (targetResult dbp db) := by
  refine ⟨_, by rw [publish_ok_spec dbp db logs body c hres hc], ?_, rfl⟩
  simp [Nat.min_comm]

/-- Witness for publish_truncation: an inline campaign with seven targets
is accepted and yields exactly five results. -/
theorem publish_truncation_witness :
    ∃ resp,
      (publish_campaign false emptyDb []
        { campaign_id := none,
          campaign := some { social_accounts := some (List.replicate 7
            { platform := "facebook", page_name := none, access_token := some "t" }) } }).fst
        = Except.ok resp ∧
      resp.results.length = 5 := by
  obtain ⟨resp, h1, h2, h3⟩ :=
    publish_truncation false emptyDb []
      { campaign_id := none,
        campaign := some { social_accounts := some (List.replicate 7
          { platform := "facebook", page_name := none, access_token := some "t" }) } }
      { social_accounts := some (List.replicate 7
          { platform := "facebook", page_name := none, access_token := some "t" }) }
      rfl rfl
  exact ⟨resp, h1, by rw [h2]; rfl⟩

/-- Claim C5: after enrichment each processed target is classified
independently: a target without a truthy token yields a result with
status error and the exact message Missing access token for this page, a
target with a token yields status success and the exact message Queued
for publish, and every processed target yields a result (a
missing-credential target never aborts the remaining ones). -/
theorem publish_classification (dbp : Bool) (db : Db) (logs : List LogRecord)
    (c : CampaignCreate) :
    ∃ resp,
      (publish_campaign dbp db logs { campaign_id := none, campaign := some c }).fst
        = Except.ok resp ∧
      resp.results = ((accountsOf c.social_accounts).take 5).map (fun acc =>
        if strOptTruthy (if dbp then enrichOne db.tokens acc else acc).access_token = false then
          { platform := (if dbp then enrichOne db.tokens acc else acc).platform,
            page_name := (if dbp then enrichOne db.tokens acc else acc).page_name,
            status := "error", message := "Missing access token for this page" }
        else
          { platform := (if dbp then enrichOne db.tokens acc else acc).platform,
            page_name := (if dbp then enrichOne db.tokens acc else acc).page_name,
            status := "success", message := "Queued for publish" }) ∧
      resp.results.length = ((accountsOf c.social_accounts).take 5).length := by
  have h := publish_ok_spec dbp db logs { campaign_id := none, campaign := some c } c rfl rfl
  exact ⟨_, by rw [h], rfl, by simp⟩

/-- Claim C6: the publish summary is exactly the string Prepared s/t
posts for publishing where s counts the success results and t counts the
processed targets; concretely, three processed targets of which two
succeed give exactly Prepared 2/3 posts for publishing. -/
theorem publish_summary_format (dbp : Bool) (db : Db) (logs : List LogRecord)
    (c : CampaignCreate) :
    (∃ resp,
      (publish_campaign dbp db logs { campaign_id := none, campaign := some c }).fst
        = Except.ok resp ∧
      resp.summary = "Prepared "
        ++ toString ((resp.results.filter (fun r => r.status == "success")).length)
        ++ "/" ++ toString resp.results.length ++ " posts for publishing") ∧
    (publish_campaign false emptyDb []
        { campaign_id := none, campaign := some threeTargetCampaign }).fst
      = Except.ok { campaign_id := none, results := threeTargetResults,
                    summary := "Prepared 2/3 posts for publishing" } := by
  constructor
  · have h := publish_ok_spec dbp db logs { campaign_id := none, campaign := some c } c rfl rfl
    exact ⟨_, by rw [h], rfl⟩
  · rfl

theorem enrich_token_kept (store : List TokenDoc) (acc : SocialAccount)
    (h : strOptTruthy acc.access_token = true) : enrichOne store acc = acc := by
  unfold enrichOne
  rw [if_pos h]

theorem enrichOne_no_token (store : List TokenDoc) (acc : SocialAccount)
    (h : strOptTruthy acc.access_token = false) :
    enrichOne store acc =
      match mainFindCredential store acc.platform
        (if strOptTruthy acc.page_name then acc.page_name else none) with
      | some d => { platform := acc.platform, page_name := d.page_name,
                    access_token := some d.access_token }
      | none => acc := by
  unfold enrichOne
  rw [if_neg (by simp [h])]

theorem backendResolve_byPage (store : List TokenDoc) (p : String) (pid : String) :
    backendResolve store p (some pid) =
      match (if pid = "" then none
        else store.find? (fun d => d.platform == p && d.page_id == some pid)) with
      | some d => some d
      | none => store.find? (fun d => d.platform == p) := by
  unfold backendResolve
  rfl

/-- Claim C10: a target that already carries a (truthy) access token is
never changed by enrichment, whatever the credential store holds, and
its publish result reports the original platform and page_name with
status success; when such a target heads the list, the first returned
result is that success record for every database state. -/
theorem token_target_passthrough (store : List TokenDoc) (dbp : Bool) (db : Db)
    (logs : List LogRecord) (acc : SocialAccount) (rest : List SocialAccount)
    (h : strOptTruthy acc.access_token = true) :
    enrichOne store acc = acc ∧
    targetResult dbp db acc =
      { platform := acc.platform, page_name := acc.page_name,
        status := "success", message := "Queued for publish" } ∧
    ∃ resp,
      (publish_campaign dbp db logs
        { campaign_id := none, campaign := some { social_accounts := some (acc :: rest) } }).fst
        = Except.ok resp ∧
      resp.results.head? = some
        { platform := acc.platform, page_name := acc.page_name,
          status := "success", message := "Queued for publish" } := by
  have hclass : classify acc =
      { platform := acc.platform, page_name := acc.page_name,
        status := "success", message := "Queued for publish" } := by
    unfold classify
    rw [if_neg (by simp [h])]
  have htr : targetResult dbp db acc =
      { platform := acc.platform, page_name := acc.page_name,
        status := "success", message := "Queued for publish" } := by
    unfold targetResult
    cases dbp with
    | false => exact hclass
    | true => rw [if_pos rfl, enrich_token_kept db.tokens acc h]; exact hclass
  refine ⟨enrich_token_kept store acc h, htr, ?_⟩
  have hp := publish_ok_spec dbp db logs
    { campaign_id := none, campaign := some { social_accounts := some (acc :: rest) } }
    { social_accounts := some (acc :: rest) } rfl rfl
  refine ⟨_, by rw [hp], ?_⟩
  show (((accountsOf (some (acc :: rest))).take 5).map (targetResult dbp db)).head? = _
  rw [show accountsOf (some (acc :: rest)) = acc :: rest from rfl, List.take_succ_cons,
    List.map_cons, List.head?_cons, htr]

/-- Witness for token_target_passthrough at a concrete token-carrying
target and a store holding a conflicting facebook credential. -/
theorem token_target_passthrough_witness :
    enrichOne [fbCred]
      { platform := "facebook", page_name := some "Mine", access_token := some "tok0" } =
      { platform := "facebook", page_name := some "Mine", access_token := some "tok0" } ∧
    targetResult true { tokens := [fbCred], campaigns := [] }
      { platform := "facebook", page_name := some "Mine", access_token := some "tok0" } =
      { platform := "facebook", page_name := some "Mine",
        status := "success", message := "Queued for publish" } ∧
    ∃ resp,
      (publish_campaign true { tokens := [fbCred], campaigns := [] } []
        { campaign_id := none, campaign := some mineCampaign }).fst
        = Except.ok resp ∧
      resp.results.head? = some
        { platform := "facebook", page_name := some "Mine",
          status := "success", message := "Queued for publish" } :=
  token_target_passthrough [fbCred] true { tokens := [fbCred], campaigns := [] } []
    { platform := "facebook", page_name := some "Mine", access_token := some "tok0" } []
    (by decide)

/-- Claim C4: a publish request referencing a campaign identifier that
matches no stored campaign fails with the 404 NotFound condition, returns
no results, and leaves the log collection untouched. -/
theorem publish_notfound (dbp : Bool) (db : Db) (logs : List LogRecord) (cid : String)
    (hid : cid ≠ "") (habsent : ∀ p ∈ db.campaigns, p.fst ≠ cid) :
    publish_campaign dbp db logs { campaign_id := some cid, campaign := none } =
      (Except.error (PublishError.notFound "Campaign not found"), logs) := by
  have hfind : (db.campaigns.take 100).find?
      (fun p => (some cid : Option String) == some p.fst) = none := by
    rw [List.find?_eq_none]
    intro x hx
    have := habsent x (List.mem_of_mem_take hx)
    simp only [beq_iff_eq, Option.some.injEq]
    exact fun he => this he.symm
  have hres : resolveCampaign db { campaign_id := some cid, campaign := none } =
      Except.error (PublishError.notFound "Campaign not found") := by
    unfold resolveCampaign
    rw [hfind]
  unfold publish_campaign
  rw [hres]
  have hcond : (({ campaign_id := some cid, campaign := none } :
      PublishRequest).campaign.isNone
      && !strOptTruthy ({ campaign_id := some cid, campaign := none } :
        PublishRequest).campaign_id) = false := by
    simp [strOptTruthy, hid]
  rw [hcond]
  rfl

/-- Witness for publish_notfound: one stored campaign with id a, a
request for id b, a nonempty log collection that stays unchanged. -/
theorem publish_notfound_witness :
    publish_campaign true { tokens := [], campaigns := [("a", { social_accounts := some [] })] }
      [{ type := "seed", results := [] }] { campaign_id := some "b", campaign := none } =
      (Except.error (PublishError.notFound "Campaign not found"),
       [{ type := "seed", results := [] }]) :=
  publish_notfound true { tokens := [], campaigns := [("a", { social_accounts := some [] })] }
    [{ type := "seed", results := [] }] "b" (by decide) (by decide)

/-- Counterexample to claim C3: an inline campaign with an empty
social-accounts list is not rejected with 400; publish_campaign returns
success, a results array (empty), the summary Prepared 0/0 posts for
publishing, and even writes a log record. -/
theorem publish_empty_accounts_counterexample :
    publish_campaign true emptyDb []
      { campaign_id := none, campaign := some { social_accounts := some [] } } =
      (Except.ok { campaign_id := none, results := [],
                   summary := "Prepared 0/0 posts for publishing" },
       [{ type := "publish", results := [] }]) := rfl

/-- Claim C3 as amended: a publish request supplying neither an inline
campaign nor a truthy campaign identifier fails with the 400 BadRequest
condition and no results array; but a request that resolves to zero
usable targets is not rejected: it returns success with an empty results
array and the summary Prepared 0/0 posts for publishing. -/
theorem publish_badrequest_amended (dbp : Bool) (db : Db) (logs : List LogRecord) :
    (∀ body : PublishRequest, body.campaign = none →
      strOptTruthy body.campaign_id = false →
      publish_campaign dbp db logs body =
        (Except.error (PublishError.badRequest "Provide campaign or campaign_id"), logs)) ∧
    (∀ c : CampaignCreate, accountsOf c.social_accounts = [] →
      (publish_campaign dbp db logs { campaign_id := none, campaign := some c }).fst =
        Except.ok { campaign_id := none, results := [],
                    summary := "Prepared 0/0 posts for publishing" }) := by
  constructor
  · intro body hb hid
    unfold publish_campaign
    rw [hb]
    simp [hid]
  · intro c hc
    have h := publish_ok_spec dbp db logs { campaign_id := none, campaign := some c } c rfl rfl
    rw [show (publish_campaign dbp db logs
        { campaign_id := none, campaign := some c }).fst = _ from congrArg Prod.fst h]
    rw [hc]
    rw [show List.map (targetResult dbp db) (List.take 5 []) = [] from rfl]
    rfl

/-- Witness for publish_badrequest_amended: an empty request gets the
400 error; an inline campaign with no accounts gets the empty success
response. -/
theorem publish_badrequest_amended_witness :
    publish_campaign true emptyDb [] { campaign_id := none, campaign := none } =
      (Except.error (PublishError.badRequest "Provide campaign or campaign_id"), []) ∧
    (publish_campaign true emptyDb []
      { campaign_id := none, campaign := some { social_accounts := none } }).fst =
      Except.ok { campaign_id := none, results := [],
                  summary := "Prepared 0/0 posts for publishing" } :=
  ⟨(publish_badrequest_amended true emptyDb []).1
      { campaign_id := none, campaign := none } rfl rfl,
   (publish_badrequest_amended true emptyDb []).2 { social_accounts := none } rfl⟩

/-- Counterexample to claim C1: in publish_campaign of src/main.py a
tokenless target whose page hint matches no stored credential is left
unenriched even though its platform has a stored credential with a token;
there is no fallback to the platform-only lookup once a hint is present. -/
theorem resolver_no_platform_fallback_counterexample :
    (List.find? (fun d => d.platform == "facebook") [fbCred]).isSome = true ∧
    enrichOne [fbCred]
      { platform := "facebook", page_name := some "Page A", access_token := none } =
      { platform := "facebook", page_name := some "Page A", access_token := none } ∧
    strOptTruthy (enrichOne [fbCred]
      { platform := "facebook", page_name := some "Page A",
        access_token := none }).access_token = false :=
  ⟨rfl, rfl, rfl⟩

/-- Claim C1 as amended: in src/main.py the platform-only fallback runs
only when the target gives no truthy page hint (then the first stored
credential of the platform enriches it); with a truthy hint the single
query is the exact (platform, page_name) pair and a miss leaves the
target unenriched. The claimed two-step order lives in the variant
endpoint of src/backend/main.py: there a missed (platform, page_id)
lookup falls back to the platform-only lookup, so a platform with any
stored credential always resolves, and an exact page_id match is
preferred. -/
theorem account_resolver_amended (store : List TokenDoc) (a1 a2 : SocialAccount)
    (d : TokenDoc) (p pid pid2 : String)
    (h1a : strOptTruthy a1.access_token = false) (h1b : strOptTruthy a1.page_name = false)
    (h1c : store.find? (fun t => t.platform == a1.platform) = some d)
    (h2a : strOptTruthy a2.access_token = false) (h2b : strOptTruthy a2.page_name = true)
    (h2c : store.find? (fun t => t.platform == a2.platform
      && t.page_name == a2.page_name) = none)
    (h3a : store.find? (fun t => t.platform == p && t.page_id == some pid2) = none)
    (h3b : (store.find? (fun t => t.platform == p)).isSome = true)
    (h4a : pid ≠ "")
    (h4b : (store.find? (fun t => t.platform == p && t.page_id == some pid)).isSome = true) :
    enrichOne store a1 =
      { platform := a1.platform, page_name := d.page_name,
        access_token := some d.access_token } ∧
    enrichOne store a2 = a2 ∧
    backendResolve store p (some pid2) = store.find? (fun t => t.platform == p) ∧
    (backendResolve store p (some pid2)).isSome = true ∧
    backendResolve store p (some pid) =
      store.find? (fun t => t.platform == p && t.page_id == some pid) := by
  have hnotok1 := enrichOne_no_token store a1 h1a
  have hnotok2 := enrichOne_no_token store a2 h2a
  have hmain1 : enrichOne store a1 =
      { platform := a1.platform, page_name := d.page_name,
        access_token := some d.access_token } := by
    rw [hnotok1, if_neg (by simp [h1b])]
    unfold mainFindCredential
    rw [show List.find? (credQuery a1.platform none) store
        = List.find? (fun t => t.platform == a1.platform) store from
      find?_ext (fun t => by simp [credQuery]) store, h1c]
  have hmain2 : enrichOne store a2 = a2 := by
    obtain ⟨pn, hpn⟩ : ∃ pn, a2.page_name = some pn := by
      cases hp : a2.page_name with
      | none => rw [hp] at h2b; exact absurd h2b (by simp [strOptTruthy])
      | some pn => exact ⟨pn, rfl⟩
    rw [hnotok2, if_pos h2b]
    unfold mainFindCredential
    rw [hpn] at h2c ⊢
    rw [show List.find? (credQuery a2.platform (some pn)) store
        = List.find? (fun t => t.platform == a2.platform && t.page_name == some pn) store from
      find?_ext (fun t => by simp [credQuery]) store, h2c]
  have hback3 : backendResolve store p (some pid2) =
      store.find? (fun t => t.platform == p) := by
    rw [backendResolve_byPage store p pid2]
    by_cases hp2 : pid2 = ""
    · rw [if_pos hp2]
    · rw [if_neg hp2, h3a]
  have hback5 : backendResolve store p (some pid) =
      store.find? (fun t => t.platform == p && t.page_id == some pid) := by
    obtain ⟨d', hd'⟩ := Option.isSome_iff_exists.mp h4b
    rw [backendResolve_byPage store p pid, if_neg h4a, hd']
  exact ⟨hmain1, hmain2, hback3, by rw [hback3]; exact h3b, hback5⟩

/-- Witness for account_resolver_amended over the sample facebook
credential store. -/
theorem account_resolver_amended_witness :
    enrichOne [fbCred] { platform := "facebook", page_name := none, access_token := none } =
      { platform := "facebook", page_name := fbCred.page_name,
        access_token := some fbCred.access_token } ∧
    enrichOne [fbCred]
      { platform := "facebook", page_name := some "Page A", access_token := none } =
      { platform := "facebook", page_name := some "Page A", access_token := none } ∧
    backendResolve [fbCred] "facebook" (some "missing") =
      List.find? (fun t => t.platform == "facebook") [fbCred] ∧
    (backendResolve [fbCred] "facebook" (some "missing")).isSome = true ∧
    backendResolve [fbCred] "facebook" (some "pid1") =
      List.find? (fun t => t.platform == "facebook" && t.page_id == some "pid1") [fbCred] :=
  account_resolver_amended [fbCred]
    { platform := "facebook", page_name := none, access_token := none }
    { platform := "facebook", page_name := some "Page A", access_token := none }
    fbCred "facebook" "pid1" "missing"
    rfl rfl (by decide) rfl rfl (by decide) (by decide) (by decide) (by decide) (by decide)

/- ===== Broadcaster and registry lemmas ===== -/

theorem putEvent_fst_sid {α : Type} (e : α) (s : Subscriber α) :
    ((putEvent e s).fst).sid = s.sid := by
  unfold putEvent
  by_cases h : s.accepting
  · rw [if_pos h]
  · rw [if_neg h]

theorem removeFirstBySid_of_not_mem {α : Type} (sid : Nat) :
    ∀ l : List (Subscriber α), sid ∉ l.map Subscriber.sid → removeFirstBySid sid l = l := by
  intro l
  induction l with
  | nil => intro _; rfl
  | cons s rest ih =>
      intro h
      rw [List.map_cons, List.mem_cons] at h
      push_neg at h
      unfold removeFirstBySid
      rw [if_neg (fun he => h.1 he.symm), ih h.2]

theorem filter_sid_of_not_mem {α : Type} (sid : Nat) (l : List (Subscriber α))
    (h : sid ∉ l.map Subscriber.sid) : l.filter (fun s => s.sid != sid) = l := by
  rw [List.filter_eq_self]
  intro s hs
  have : s.sid ≠ sid := fun he => h (he ▸ List.mem_map_of_mem Subscriber.sid hs)
  simpa using this

theorem removeFirst_eq_filter {α : Type} (sid : Nat) :
    ∀ l : List (Subscriber α), (l.map Subscriber.sid).count sid ≤ 1 →
      removeFirstBySid sid l = l.filter (fun s => s.sid != sid) := by
  intro l
  induction l with
  | nil => intro _; rfl
  | cons s rest ih =>
      intro h
      rw [List.map_cons] at h
      by_cases hs : s.sid = sid
      · have hrest : sid ∉ rest.map Subscriber.sid := by
          rw [hs, List.count_cons_self] at h
          exact List.count_eq_zero.mp (by omega)
        unfold removeFirstBySid
        rw [if_pos hs, List.filter_cons_of_neg (by simp [hs]),
          filter_sid_of_not_mem sid rest hrest]
      · have hc : (rest.map Subscriber.sid).count sid ≤ 1 := by
          rw [List.count_cons_of_ne (fun he => hs he.symm)] at h
          exact h
        unfold removeFirstBySid
        rw [if_neg hs, ih hc, List.filter_cons_of_pos (by simp [hs])]

theorem unregister_eq_filter {α : Type} (l : List (Subscriber α)) (sid : Nat)
    (h : (l.map Subscriber.sid).count sid ≤ 1) :
    unregisterSid l sid = l.filter (fun s => s.sid != sid) := by
  unfold unregisterSid
  by_cases hm : sid ∈ l.map Subscriber.sid
  · rw [if_pos hm, removeFirst_eq_filter sid l h]
  · rw [if_neg hm, filter_sid_of_not_mem sid l hm]

theorem sid_not_mem_filter {α : Type} (l : List (Subscriber α)) (sid : Nat) :
    sid ∉ (l.filter (fun s => s.sid != sid)).map Subscriber.sid := by
  intro hmem
  obtain ⟨s, hs, hsid⟩ := List.mem_map.mp hmem
  have := (List.mem_filter.mp hs).2
  rw [hsid] at this
  simp at this

/-- Claim C8: the streaming session teardown removes its subscriber from
the registry on every exit path (the exit reason does not matter),
leaving exactly the other subscribers in order; afterwards the subscriber
is gone; a second unregister for the same subscriber is a no-op; and an
unregister for an unknown subscriber leaves the registry untouched. -/
theorem session_cleanup_guaranteed {α : Type} (r : ExitReason) (ls ls2 : List (Subscriber α))
    (sid sid2 : Nat) (h1 : (ls.map Subscriber.sid).count sid ≤ 1)
    (h2 : sid2 ∉ ls2.map Subscriber.sid) :
    sessionTeardown r ls sid = ls.filter (fun s => s.sid != sid) ∧
    sid ∉ (sessionTeardown r ls sid).map Subscriber.sid ∧
    unregisterSid (unregisterSid ls sid) sid = unregisterSid ls sid ∧
    unregisterSid ls2 sid2 = ls2 := by
  have hfil : sessionTeardown r ls sid = ls.filter (fun s => s.sid != sid) :=
    unregister_eq_filter ls sid h1
  refine ⟨hfil, by rw [hfil]; exact sid_not_mem_filter ls sid, ?_, ?_⟩
  · have hone : unregisterSid ls sid = ls.filter (fun s => s.sid != sid) :=
      unregister_eq_filter ls sid h1
    rw [hone]
    unfold unregisterSid
    rw [if_neg (sid_not_mem_filter ls sid)]
  · unfold unregisterSid
    rw [if_neg h2]

/-- Witness for session_cleanup_guaranteed: a cancelled session with id 2
is removed from a three-subscriber registry, and id 9 is unknown to a
second registry. -/
theorem session_cleanup_guaranteed_witness :
    sessionTeardown ExitReason.cancelled
      [(⟨1, ["a"], true⟩ : Subscriber String), ⟨2, [], true⟩, ⟨3, [], false⟩] 2 =
      List.filter (fun s => s.sid != 2)
        [(⟨1, ["a"], true⟩ : Subscriber String), ⟨2, [], true⟩, ⟨3, [], false⟩] ∧
    2 ∉ (sessionTeardown ExitReason.cancelled
      [(⟨1, ["a"], true⟩ : Subscriber String), ⟨2, [], true⟩, ⟨3, [], false⟩] 2).map
        Subscriber.sid ∧
    unregisterSid (unregisterSid
      [(⟨1, ["a"], true⟩ : Subscriber String), ⟨2, [], true⟩, ⟨3, [], false⟩] 2) 2 =
      unregisterSid
        [(⟨1, ["a"], true⟩ : Subscriber String), ⟨2, [], true⟩, ⟨3, [], false⟩] 2 ∧
    unregisterSid [(⟨7, [], true⟩ : Subscriber String)] 9 = [⟨7, [], true⟩] :=
  session_cleanup_guaranteed ExitReason.cancelled
    [⟨1, ["a"], true⟩, ⟨2, [], true⟩, ⟨3, [], false⟩] [⟨7, [], true⟩] 2 9
    (by decide) (by decide)

theorem removeFirstBySid_cons_ne {α : Type} (d : Nat) (x : Subscriber α)
    (l : List (Subscriber α)) (h : x.sid ≠ d) :
    removeFirstBySid d (x :: l) = x :: removeFirstBySid d l := by
  show (if x.sid = d then l else x :: removeFirstBySid d l) = x :: removeFirstBySid d l
  rw [if_neg h]

theorem removeFirstBySid_cons_self {α : Type} (x : Subscriber α) (l : List (Subscriber α)) :
    removeFirstBySid x.sid (x :: l) = l := by
  show (if x.sid = x.sid then l else x :: removeFirstBySid x.sid l) = l
  rw [if_pos rfl]

theorem foldl_remove_cons {α : Type} (ds : List Nat) (x : Subscriber α)
    (l : List (Subscriber α)) (h : ∀ d ∈ ds, d ≠ x.sid) :
    ds.foldl (fun acc sid => removeFirstBySid sid acc) (x :: l) =
      x :: ds.foldl (fun acc sid => removeFirstBySid sid acc) l := by
  induction ds generalizing l with
  | nil => rfl
  | cons d ds ih =>
      have hd : d ≠ x.sid := h d (List.mem_cons_self d ds)
      rw [List.foldl_cons, List.foldl_cons,
        removeFirstBySid_cons_ne d x l (fun he => hd he.symm)]
      exact ih (removeFirstBySid d l) (fun d' hd' => h d' (List.mem_cons_of_mem d hd'))

theorem notify_def {α : Type} (e : α) (listeners : List (Subscriber α)) :
    notify e listeners =
      (((listeners.map (fun t => putEvent e t)).filter
          (fun pr => pr.snd == false)).map (fun pr => pr.fst.sid)).foldl
        (fun acc sid => removeFirstBySid sid acc)
        ((listeners.map (fun t => putEvent e t)).map Prod.fst) := rfl

theorem notify_cons_accepting {α : Type} (e : α) (s : Subscriber α)
    (rest : List (Subscriber α)) (hacc : s.accepting = true)
    (hdead : ∀ d ∈ ((rest.map (fun t => putEvent e t)).filter
        (fun pr => pr.snd == false)).map (fun pr => pr.fst.sid), d ≠ s.sid) :
    notify e (s :: rest) = { s with queue := s.queue ++ [e] } :: notify e rest := by
  have hput : putEvent e s = ({ s with queue := s.queue ++ [e] }, true) := by
    unfold putEvent; rw [if_pos hacc]
  rw [notify_def, List.map_cons, hput, List.filter_cons_of_neg (by simp)]
  refine Eq.trans (foldl_remove_cons _ _ _ hdead) ?_
  rw [notify_def]

theorem notify_cons_dead {α : Type} (e : α) (s : Subscriber α)
    (rest : List (Subscriber α)) (hacc : s.accepting = false) :
    notify e (s :: rest) = notify e rest := by
  have hput : putEvent e s = (s, false) := by
    unfold putEvent; rw [if_neg (by simp [hacc])]
  rw [notify_def, List.map_cons, hput, List.filter_cons_of_pos (by simp), List.map_cons,
    List.map_cons, List.foldl_cons]
  refine Eq.trans ?_ (notify_def e rest).symm
  exact congrArg
    (fun l0 => List.foldl (fun acc sid => removeFirstBySid sid acc) l0
      (((rest.map (fun t => putEvent e t)).filter
        (fun pr => pr.snd == false)).map (fun pr => pr.fst.sid)))
    (removeFirstBySid_cons_self s ((rest.map (fun t => putEvent e t)).map Prod.fst))

theorem notify_eq_filter {α : Type} (e : α) :
    ∀ listeners : List (Subscriber α), (listeners.map Subscriber.sid).Nodup →
      notify e listeners =
        (listeners.filter (fun s => s.accepting)).map
          (fun s => { s with queue := s.queue ++ [e] }) := by
  intro listeners
  induction listeners with
  | nil => intro _; rfl
  | cons s rest ih =>
      intro hnd
      rw [List.map_cons, List.nodup_cons] at hnd
      obtain ⟨hs_not, hnd'⟩ := hnd
      by_cases hacc : s.accepting
      · have hdead : ∀ d ∈ (((rest.map (fun t => putEvent e t)).filter
            (fun pr => pr.snd == false)).map (fun pr => pr.fst.sid)), d ≠ s.sid := by
          intro d hd he
          apply hs_not
          obtain ⟨pr, hpr, hdd⟩ := List.mem_map.mp hd
          obtain ⟨t, ht, hpt⟩ := List.mem_map.mp (List.mem_filter.mp hpr).1
          rw [← he, ← hdd, ← hpt, putEvent_fst_sid]
          exact List.mem_map_of_mem Subscriber.sid ht
        rw [notify_cons_accepting e s rest hacc hdead, ih hnd',
          List.filter_cons_of_pos (by simp [hacc]), List.map_cons]
      · rw [notify_cons_dead e s rest (by simpa using hacc), ih hnd',
          List.filter_cons_of_neg (by simpa using hacc)]

/-- Claim C7: a broadcaster publish with pairwise distinct subscriber ids
appends the event exactly once at the back of the queue of every
registered subscriber whose enqueue succeeds (in registry order), drops
from the registry exactly the subscribers whose enqueue fails, returns
normally, and delivers nothing to a subscriber that unregistered before
the call (its id cannot reappear in the resulting registry). -/
theorem notify_fanout {α : Type} (e : α) (listeners : List (Subscriber α))
    (hnd : (listeners.map Subscriber.sid).Nodup) :
    notify e listeners =
      (listeners.filter (fun s => s.accepting)).map
        (fun s => { s with queue := s.queue ++ [e] }) ∧
    ∀ sid0, sid0 ∉ listeners.map Subscriber.sid →
      sid0 ∉ (notify e listeners).map Subscriber.sid := by
  have hmain := notify_eq_filter e listeners hnd
  refine ⟨hmain, ?_⟩
  intro sid0 h0 hmem
  apply h0
  rw [hmain] at hmem
  obtain ⟨t, ht, htt⟩ := List.mem_map.mp hmem
  obtain ⟨u, hu, huu⟩ := List.mem_map.mp ht
  have hu' := (List.mem_filter.mp hu).1
  rw [← htt, ← huu]
  show u.sid ∈ List.map Subscriber.sid listeners
  exact List.mem_map_of_mem Subscriber.sid hu'

/-- Witness for notify_fanout: three accepting subscribers each receive
the event exactly once in order, the failing subscriber 3 is dropped,
and id 9 (unregistered before the call) receives nothing. -/
theorem notify_fanout_witness :
    notify "evt"
      [(⟨1, [], true⟩ : Subscriber String), ⟨2, ["old"], true⟩, ⟨3, [], false⟩,
        ⟨4, [], true⟩] =
      [(⟨1, ["evt"], true⟩ : Subscriber String), ⟨2, ["old", "evt"], true⟩,
        ⟨4, ["evt"], true⟩] ∧
    (9 : Nat) ∉ (notify "evt"
      [(⟨1, [], true⟩ : Subscriber String), ⟨2, ["old"], true⟩, ⟨3, [], false⟩,
        ⟨4, [], true⟩]).map Subscriber.sid := by
  have h := notify_fanout "evt"
    [(⟨1, [], true⟩ : Subscriber String), ⟨2, ["old"], true⟩, ⟨3, [], false⟩, ⟨4, [], true⟩]
    (by decide)
  exact ⟨by rw [h.1]; rfl, h.2 9 (by decide)⟩

/- ===== Streaming session lemmas ===== -/

theorem sessionLoop_length :
    ∀ inputs : List SessionInput, SessionInput.disconnect ∉ inputs →
      (sessionLoop inputs).length = inputs.length := by
  intro inputs
  induction inputs with
  | nil => intro _; rfl
  | cons a rest ih =>
      intro h
      rw [List.mem_cons] at h
      push_neg at h
      cases a with
      | disconnect => exact absurd rfl (fun he => h.1 he.symm)
      | deliver p => simpa [sessionLoop] using ih h.2
      | idle ts => simpa [sessionLoop] using ih h.2

theorem sessionLoop_get :
    ∀ inputs : List SessionInput, SessionInput.disconnect ∉ inputs →
      ∀ i : Nat, (sessionLoop inputs)[i]? = (inputs[i]?).map frameOf := by
  intro inputs
  induction inputs with
  | nil => intro _ i; rfl
  | cons a rest ih =>
      intro h i
      rw [List.mem_cons] at h
      push_neg at h
      cases a with
      | disconnect => exact absurd rfl (fun he => h.1 he.symm)
      | deliver p =>
          rw [show sessionLoop (SessionInput.deliver p :: rest)
              = messageFrame p :: sessionLoop rest from rfl]
          cases i with
          | zero => rw [List.getElem?_cons_zero, List.getElem?_cons_zero]; rfl
          | succ j => rw [List.getElem?_cons_succ, List.getElem?_cons_succ, ih h.2 j]
      | idle ts =>
          rw [show sessionLoop (SessionInput.idle ts :: rest)
              = pingFrame ts :: sessionLoop rest from rfl]
          cases i with
          | zero => rw [List.getElem?_cons_zero, List.getElem?_cons_zero]; rfl
          | succ j => rw [List.getElem?_cons_succ, List.getElem?_cons_succ, ih h.2 j]

/-- Claim C9: a streaming session emits the hello frame first (event name
ping, JSON body with type hello and the connect timestamp); afterwards
every loop iteration of a connected session emits exactly one frame:
the message frame of a queued event delivered within the timeout,
otherwise the ping heartbeat frame with the current timestamp; and the
wait timeout is 15 seconds. -/
theorem stream_session_frames (helloTs : String) (inputs : List SessionInput)
    (hnd : SessionInput.disconnect ∉ inputs) :
    (eventGenerator helloTs inputs).length = inputs.length + 1 ∧
    (eventGenerator helloTs inputs).head? =
      some ("event: ping\ndata: \x7b\x22type\x22: \x22hello\x22, \x22ts\x22: \x22"
        ++ helloTs ++ "\x22\x7d\n\n") ∧
    (∀ i p, inputs[i]? = some (SessionInput.deliver p) →
      (eventGenerator helloTs inputs)[i + 1]? =
        some ("event: message\ndata: " ++ p ++ "\n\n")) ∧
    (∀ i ts, inputs[i]? = some (SessionInput.idle ts) →
      (eventGenerator helloTs inputs)[i + 1]? =
        some ("event: ping\ndata: \x7b\x22type\x22: \x22ping\x22, \x22ts\x22: \x22"
          ++ ts ++ "\x22\x7d\n\n")) ∧
    heartbeatTimeoutSeconds = 15 := by
  refine ⟨?_, rfl, ?_, ?_, rfl⟩
  · show (sessionLoop inputs).length + 1 = inputs.length + 1
    rw [sessionLoop_length inputs hnd]
  · intro i p hi
    rw [show eventGenerator helloTs inputs
        = helloFrame helloTs :: sessionLoop inputs from rfl,
      List.getElem?_cons_succ, sessionLoop_get inputs hnd i, hi]
    rfl
  · intro i ts hi
    rw [show eventGenerator helloTs inputs
        = helloFrame helloTs :: sessionLoop inputs from rfl,
      List.getElem?_cons_succ, sessionLoop_get inputs hnd i, hi]
    rfl

/-- Witness for stream_session_frames on a two-iteration trace: one
delivered event and one timeout. -/
theorem stream_session_frames_witness :
    (eventGenerator "T0"
      [SessionInput.deliver "\x7b\x22type\x22: \x22typing\x22\x7d",
       SessionInput.idle "T1"]).length = 3 ∧
    (eventGenerator "T0"
      [SessionInput.deliver "\x7b\x22type\x22: \x22typing\x22\x7d",
       SessionInput.idle "T1"]).head? =
      some ("event: ping\ndata: \x7b\x22type\x22: \x22hello\x22, \x22ts\x22: \x22"
        ++ "T0" ++ "\x22\x7d\n\n") ∧
    (eventGenerator "T0"
      [SessionInput.deliver "\x7b\x22type\x22: \x22typing\x22\x7d",
       SessionInput.idle "T1"])[1]? =
      some ("event: message\ndata: "
        ++ "\x7b\x22type\x22: \x22typing\x22\x7d" ++ "\n\n") ∧
    (eventGenerator "T0"
      [SessionInput.deliver "\x7b\x22type\x22: \x22typing\x22\x7d",
       SessionInput.idle "T1"])[2]? =
      some ("event: ping\ndata: \x7b\x22type\x22: \x22ping\x22, \x22ts\x22: \x22"
        ++ "T1" ++ "\x22\x7d\n\n") := by
  have h := stream_session_frames "T0"
    [SessionInput.deliver "\x7b\x22type\x22: \x22typing\x22\x7d", SessionInput.idle "T1"]
    (by decide)
  exact ⟨h.1, h.2.1, h.2.2.1 0 "\x7b\x22type\x22: \x22typing\x22\x7d" rfl, h.2.2.2.1 1 "T1" rfl⟩

end AdsStudio
